import Mathlib

/-!
Shallow embedding of the Redis-backed restaurant cache of
`src/protocols/task9/redis.py`: the JSON codec (`_serialize_data` /
`_deserialize_data`), the cache-key composer (`_generate_cache_key`),
the mock source-of-record database (`MockRestaurantDatabase`) and the
cache façade operations of `RestaurantRedisCache`, together with proofs
of the specification claims about them.

The Redis backend is modelled as an association list of
`key ↦ (payload, ttl)` entries plus a `Behavior` flag pair describing
connectivity: `available = false` models `redis_client is None` (no
client / failed `connect`), and `failing = true` models every backend
call raising an exception.  The Python methods catch all exceptions
around backend calls, so the embedded operations are total functions.
-/

/-- JSON values as produced by the program's records and handled by the
`json.dumps` / `json.loads` codec.  Numbers are modelled as exact decimals
`m * 10 ^ (-e)`, which is faithful for every numeric literal this program
stores: their decimal forms round-trip exactly through the Python float
repr used by the codec. -/
inductive Json where
  | null : Json
  | bool : Bool → Json
  | num : Int → Nat → Json
  | str : String → Json
  | arr : List Json → Json
  | obj : List (String × Json) → Json

/-- Decimal rendering of the number `m * 10 ^ (-e)`, matching how
`json.dumps` prints the numeric literals stored by this program
(ints print bare, floats with a decimal point). -/
def printNum (m : Int) (e : Nat) : String :=
  let sign := if m < 0 then "-" else ""
  let ds := toString m.natAbs
  if e = 0 then sign ++ ds
  else
    let digs := ds.toList
    let padded := List.replicate (e + 1 - digs.length) '0' ++ digs
    sign ++ String.mk (padded.take (padded.length - e)) ++ "." ++
      String.mk (padded.drop (padded.length - e))

/-- JSON string escaping as performed by `json.dumps` (with
`ensure_ascii=False`) on the characters occurring in this program's data. -/
def escapeChar (c : Char) : List Char :=
  if c = '"' then ['\\', '"']
  else if c = '\\' then ['\\', '\\']
  else if c = '\n' then ['\\', 'n']
  else if c = '\t' then ['\\', 't']
  else if c = '\r' then ['\\', 'r']
  else [c]

def escapeStr (s : String) : String := String.mk (s.toList.map escapeChar).flatten

def lbrace : Char := Char.ofNat 123

def rbrace : Char := Char.ofNat 125

mutual

/-- Model of `_serialize_data`, i.e. `json.dumps(data, default=str,
ensure_ascii=False)` with the library's default separators. -/
def dumps : Json → String
  | .null => "null"
  | .bool true => "true"
  | .bool false => "false"
  | .num m e => printNum m e
  | .str s => "\"" ++ escapeStr s ++ "\""
  | .arr xs => "[" ++ dumpsElems xs ++ "]"
  | .obj fs => String.mk [lbrace] ++ dumpsMembers fs ++ String.mk [rbrace]

def dumpsElems : List Json → String
  | [] => ""
  | [x] => dumps x
  | x :: y :: xs => dumps x ++ ", " ++ dumpsElems (y :: xs)

def dumpsMembers : List (String × Json) → String
  | [] => ""
  | [(k, v)] => "\"" ++ escapeStr k ++ "\": " ++ dumps v
  | (k, v) :: y :: xs =>
      "\"" ++ escapeStr k ++ "\": " ++ dumps v ++ ", " ++ dumpsMembers (y :: xs)

end

/-- Whitespace skipping of the JSON reader. -/
def skipWs : List Char → List Char
  | c :: cs => if c = ' ' ∨ c = '\n' ∨ c = '\t' ∨ c = '\r' then skipWs cs else c :: cs
  | [] => []

/-- Read a maximal run of decimal digits. -/
def takeDigits (acc : List Char) : List Char → List Char × List Char
  | c :: cs =>
      if c.isDigit then takeDigits (c :: acc) cs
      else (acc.reverse, c :: cs)
  | [] => (acc.reverse, [])

def digitsToNat (ds : List Char) : Nat :=
  ds.foldl (fun a c => 10 * a + (c.toNat - 48)) 0

/-- Read the body of a JSON string after the opening quote, handling the
escape sequences `json` emits for this program's payloads; an unknown
escape makes the parse fail, as `json.loads` would. -/
def parseStrChars (acc : List Char) : List Char → Option (List Char × List Char)
  | '"' :: cs => some (acc.reverse, cs)
  | '\\' :: c :: cs =>
      match escUnquote c with
      | some c' => parseStrChars (c' :: acc) cs
      | none => none
  | c :: cs => parseStrChars (c :: acc) cs
  | [] => none
where
  escUnquote (c : Char) : Option Char :=
    if c = '"' then some '"'
    else if c = '\\' then some '\\'
    else if c = '/' then some '/'
    else if c = 'n' then some '\n'
    else if c = 't' then some '\t'
    else if c = 'r' then some '\r'
    else none

/-- Read a JSON number (an optional minus sign, digits, an optional decimal
fraction) into the exact decimal model `m * 10 ^ (-e)`. -/
def parseNum (cs : List Char) : Option (Json × List Char) :=
  let (neg, cs1) := match cs with
    | '-' :: r => (true, r)
    | _ => (false, cs)
  let (d1, cs2) := takeDigits [] cs1
  if d1.isEmpty then none
  else
    match cs2 with
    | '.' :: r =>
        let (d2, cs3) := takeDigits [] r
        if d2.isEmpty then none
        else
          let n : Int := Int.ofNat (digitsToNat (d1 ++ d2))
          some (.num (if neg then -n else n) d2.length, cs3)
    | _ =>
        let n : Int := Int.ofNat (digitsToNat d1)
        some (.num (if neg then -n else n) 0, cs2)

mutual

/-- Fuel-driven recursive-descent JSON reader modelling `json.loads` on the
grammar fragment this program's payloads use (no exponents, no unicode
escapes); any input outside the grammar yields `none`, modelling the
`json.JSONDecodeError` raised by the library. -/
def parseVal : Nat → List Char → Option (Json × List Char)
  | 0, _ => none
  | fuel + 1, cs =>
      match skipWs cs with
      | '"' :: rest => (parseStrChars [] rest).map (fun p => (.str (String.mk p.1), p.2))
      | 'n' :: 'u' :: 'l' :: 'l' :: rest => some (.null, rest)
      | 't' :: 'r' :: 'u' :: 'e' :: rest => some (.bool true, rest)
      | 'f' :: 'a' :: 'l' :: 's' :: 'e' :: rest => some (.bool false, rest)
      | '[' :: rest =>
          match skipWs rest with
          | ']' :: r2 => some (.arr [], r2)
          | r2 => (parseElems fuel [] r2).map (fun p => (.arr p.1, p.2))
      | c :: rest =>
          if c = lbrace then
            match skipWs rest with
            | c2 :: r2 =>
                if c2 = rbrace then some (.obj [], r2)
                else (parseMembers fuel [] (c2 :: r2)).map (fun p => (.obj p.1, p.2))
            | [] => none
          else if c = '-' ∨ c.isDigit then parseNum (c :: rest)
          else none
      | [] => none

/-- Comma-separated array elements up to the closing bracket. -/
def parseElems : Nat → List Json → List Char → Option (List Json × List Char)
  | 0, _, _ => none
  | fuel + 1, acc, cs =>
      match parseVal fuel cs with
      | some (v, r) =>
          match skipWs r with
          | ',' :: r2 => parseElems fuel (v :: acc) r2
          | ']' :: r2 => some ((v :: acc).reverse, r2)
          | _ => none
      | none => none

/-- Comma-separated object members up to the closing brace. -/
def parseMembers : Nat → List (String × Json) → List Char →
    Option (List (String × Json) × List Char)
  | 0, _, _ => none
  | fuel + 1, acc, cs =>
      match skipWs cs with
      | '"' :: r =>
          match parseStrChars [] r with
          | some (k, r2) =>
              match skipWs r2 with
              | ':' :: r3 =>
                  match parseVal fuel r3 with
                  | some (v, r4) =>
                      match skipWs r4 with
                      | ',' :: r5 => parseMembers fuel ((String.mk k, v) :: acc) r5
                      | c :: r5 =>
                          if c = rbrace then some (((String.mk k, v) :: acc).reverse, r5)
                          else none
                      | [] => none
                  | none => none
              | _ => none
          | none => none
      | _ => none

end

/-- Model of `_deserialize_data`, i.e. `json.loads(data)`: parse one value
and require only trailing whitespace after it; `none` models the decode
exception.  The fuel bound exceeds what any payload this program stores
could consume (the reader spends fuel only on nesting and elements). -/
def loads (s : String) : Option Json :=
  match parseVal 1000000 s.toList with
  | some (v, rest) => if (skipWs rest).isEmpty then some v else none
  | none => none

/-- Exact decimal model of the Python float parameters of this program
(`min_rating` and the configured TTL base are the only numeric inputs):
the value `m * 10 ^ (-e)`. -/
structure DecNum where
  m : Int
  e : Nat
deriving DecidableEq

/-- Numeric strict order on exact decimals, the model of Python `<` on the
floats this program compares. -/
def decLt (a b : DecNum) : Bool :=
  decide (a.m * (10 : Int) ^ b.e < b.m * (10 : Int) ^ a.e)

/-- Rendering of a Python float by `str`, as used in f-string key segments:
always shows a decimal point. -/
def pyFloatStr (d : DecNum) : String :=
  if d.e = 0 then printNum d.m 0 ++ ".0" else printNum d.m d.e

/-- Lexicographic order on `(name, value)` parameter pairs: the order used
by Python's `sorted(kwargs.items())` in `_generate_cache_key`. -/
def pairLE (a b : String × String) : Prop :=
  a.1 < b.1 ∨ (a.1 = b.1 ∧ a.2 ≤ b.2)

instance : DecidableRel pairLE := fun a b => by
  unfold pairLE; infer_instance

instance : IsTotal (String × String) pairLE := by
  constructor
  rintro ⟨a1, a2⟩ ⟨b1, b2⟩
  rcases lt_trichotomy a1 b1 with h | h | h
  · exact Or.inl (Or.inl h)
  · rcases le_total a2 b2 with h2 | h2
    · exact Or.inl (Or.inr ⟨h, h2⟩)
    · exact Or.inr (Or.inr ⟨h.symm, h2⟩)
  · exact Or.inr (Or.inl h)

instance : IsTrans (String × String) pairLE := by
  constructor
  rintro ⟨a1, a2⟩ ⟨b1, b2⟩ ⟨c1, c2⟩ (h1 | ⟨he1, hl1⟩) (h2 | ⟨he2, hl2⟩)
  · exact Or.inl (h1.trans h2)
  · exact Or.inl (he2 ▸ h1)
  · exact Or.inl (he1 ▸ h2)
  · exact Or.inr ⟨he1.trans he2, hl1.trans hl2⟩

instance : IsAntisymm (String × String) pairLE := by
  constructor
  rintro ⟨a1, a2⟩ ⟨b1, b2⟩ (h1 | ⟨he1, hl1⟩) (h2 | ⟨he2, hl2⟩)
  · exact absurd h2 (lt_asymm h1)
  · exact absurd h1 (he2 ▸ lt_irrefl b1)
  · exact absurd h2 (he1 ▸ lt_irrefl a1)
  · rw [Prod.mk.injEq]
    exact ⟨he1, le_antisymm hl1 hl2⟩

/-- Model of `_generate_cache_key(prefix, identifier, **kwargs)`: the two
fixed segments, then — when the parameter mapping is non-empty — the
parameters sorted as pairs and rendered `name:value` joined by `_`, all
joined by `:`.  The parameter mapping is modelled as an association list
(Python `dict` items). -/
def genKey (pre ident : String) (params : List (String × String)) : String :=
  let keyParts : List String :=
    if params.isEmpty then [pre, ident]
    else
      let sortedParams := params.insertionSort pairLE
      [pre, ident, String.intercalate "_" (sortedParams.map (fun kv => kv.1 ++ ":" ++ kv.2))]
  String.intercalate ":" keyParts

/-- Cache key of one restaurant record (`'restaurant'` namespace). -/
def recordKey (rid : String) : String := genKey "restaurant" rid []

/-- Cache key of the single bulk listing (`'restaurants'`, `'all'`). -/
def bulkKey : String := genKey "restaurants" "all" []

/-- Hex digit of a value below 16. -/
def hexDigit (n : Nat) : Char :=
  if n < 10 then Char.ofNat (48 + n) else Char.ofNat (87 + n)

/-- Fixed-width lowercase hex rendering. -/
def hexOfNat : Nat → Nat → String
  | 0, _ => ""
  | w + 1, n => hexOfNat w (n / 16) ++ String.mk [hexDigit (n % 16)]

/-- Deterministic fixed-width stand-in for
`hashlib.md5(query.encode()).hexdigest()[:8]`: an eight-hex-character
digest of the query text.  Every claim about the cache depends only on
this being a deterministic function of the query producing hex characters,
never on the particular md5 digest values. -/
def md5hex8 (s : String) : String :=
  hexOfNat 8 (s.toList.foldl (fun a c => (a * 131 + c.toNat) % 4294967296) 5381)

/-- Python truthiness of the optional `cuisine_type` argument: `None` and
the empty string are falsy. -/
def truthyOpt : Option String → Bool
  | none => false
  | some s => !(s == "")

/-- Search-result cache key, as composed by `search_restaurants`:
namespace `'search'`, the truncated query digest, and the keyword
parameters `cuisine=cuisine_type or 'any'` and `min_rating=min_rating`. -/
def searchKey (q : String) (ct : Option String) (mr : DecNum) : String :=
  genKey "search" (md5hex8 q)
    [("cuisine", if truthyOpt ct then ct.getD "" else "any"),
     ("min_rating", pyFloatStr mr)]

/-- Backend cache contents: one entry per key, holding the stored payload
text and the TTL it was written with.  The backend's own lazy expiry is
out of scope (the engine only ever sets TTLs). -/
abbrev CacheState : Type := List (String × String × Nat)

/-- Connectivity of the Redis backend: `available = false` models
`redis_client is None` (no client after a failed `connect`), and
`failing = true` models every backend call raising an exception (which the
Python code catches and logs). -/
structure Behavior where
  available : Bool
  failing : Bool

/-- Model of `redis_client.get(k)` on reachable state: the payload of the
first entry for the key. -/
def lookupC (st : CacheState) (k : String) : Option (String × Nat) :=
  (st.find? (fun e => e.1 == k)).map (fun e => e.2)

/-- Model of `redis_client.setex(k, ttl, v)`: unconditional overwrite. -/
def setex (st : CacheState) (k v : String) (ttl : Nat) : CacheState :=
  (k, v, ttl) :: st.filter (fun e => !(e.1 == k))

/-- Model of `redis_client.delete(k)` on a single key. -/
def delKey (st : CacheState) (k : String) : CacheState :=
  st.filter (fun e => !(e.1 == k))

/-- Boolean string-prefix test (on the character lists of the strings). -/
def pfxB (p s : String) : Bool := p.toList.isPrefixOf s.toList

/-- Model of `redis_client.keys(p ++ "*")` for the glob patterns this
program uses (a literal prefix followed by `*`). -/
def globKeys (st : CacheState) (p : String) : List String :=
  (st.filter (fun e => pfxB p e.1)).map (fun e => e.1)

/-- Model of `redis_client.delete(*keys)` where `keys` enumerates every key
with the given literal prefix. -/
def delPre (st : CacheState) (p : String) : CacheState :=
  st.filter (fun e => !(pfxB p e.1))

/-- Record `'rest_001'` of `MockRestaurantDatabase.__init__`, transcribed
field for field (decimal literals kept exactly as written). -/
def rest001 : Json := .obj
  [("restaurant_id", .str "rest_001"),
   ("name", .str "The Golden Spoon"),
   ("address", .str "123 Main St, Downtown, City 12345"),
   ("phone_number", .str "+1-555-0101"),
   ("rating", .num 48 1),
   ("cuisine_type", .str "Italian"),
   ("description", .str "Authentic Italian cuisine with a modern twist"),
   ("is_active", .bool true),
   ("created_at", .str "2024-01-15T10:30:00"),
   ("updated_at", .str "2024-01-20T14:45:00"),
   ("menu_items", .arr
     [.obj
       [("item_id", .str "item_001"),
        ("name", .str "Margherita Pizza"),
        ("description", .str "Classic pizza with tomato, mozzarella, and basil"),
        ("price", .num 1599 2),
        ("category", .str "Pizza"),
        ("is_available", .bool true)],
      .obj
       [("item_id", .str "item_002"),
        ("name", .str "Pasta Carbonara"),
        ("description", .str "Creamy pasta with bacon and parmesan"),
        ("price", .num 1850 2),
        ("category", .str "Pasta"),
        ("is_available", .bool true)]]),
   ("reviews", .arr
     [.obj
       [("review_id", .str "rev_001"),
        ("customer_name", .str "John Doe"),
        ("rating", .num 5 0),
        ("comment", .str "Excellent food and service!"),
        ("date", .str "2024-01-18T19:30:00")]])]

/-- Record `'rest_002'` of `MockRestaurantDatabase.__init__`. -/
def rest002 : Json := .obj
  [("restaurant_id", .str "rest_002"),
   ("name", .str "Sushi Sensation"),
   ("address", .str "456 Oak Ave, Uptown, City 12345"),
   ("phone_number", .str "+1-555-0102"),
   ("rating", .num 49 1),
   ("cuisine_type", .str "Japanese"),
   ("description", .str "Fresh sushi and traditional Japanese dishes"),
   ("is_active", .bool true),
   ("created_at", .str "2024-01-10T09:15:00"),
   ("updated_at", .str "2024-01-22T11:20:00"),
   ("menu_items", .arr
     [.obj
       [("item_id", .str "item_003"),
        ("name", .str "Salmon Sashimi"),
        ("description", .str "Fresh salmon slices"),
        ("price", .num 2200 2),
        ("category", .str "Sashimi"),
        ("is_available", .bool true)],
      .obj
       [("item_id", .str "item_004"),
        ("name", .str "California Roll"),
        ("description", .str "Crab, avocado, and cucumber roll"),
        ("price", .num 1250 2),
        ("category", .str "Sushi Roll"),
        ("is_available", .bool true)]]),
   ("reviews", .arr
     [.obj
       [("review_id", .str "rev_002"),
        ("customer_name", .str "Jane Smith"),
        ("rating", .num 5 0),
        ("comment", .str "Best sushi in town!"),
        ("date", .str "2024-01-20T20:15:00")]])]

/-- Record `'rest_003'` of `MockRestaurantDatabase.__init__`. -/
def rest003 : Json := .obj
  [("restaurant_id", .str "rest_003"),
   ("name", .str "Burger Barn"),
   ("address", .str "789 Pine St, Westside, City 12345"),
   ("phone_number", .str "+1-555-0103"),
   ("rating", .num 46 1),
   ("cuisine_type", .str "American"),
   ("description", .str "Gourmet burgers and craft beer"),
   ("is_active", .bool true),
   ("created_at", .str "2024-01-12T12:00:00"),
   ("updated_at", .str "2024-01-19T16:30:00"),
   ("menu_items", .arr
     [.obj
       [("item_id", .str "item_005"),
        ("name", .str "Classic Cheeseburger"),
        ("description", .str "Beef patty with cheese, lettuce, tomato"),
        ("price", .num 1499 2),
        ("category", .str "Burger"),
        ("is_available", .bool true)],
      .obj
       [("item_id", .str "item_006"),
        ("name", .str "BBQ Bacon Burger"),
        ("description", .str "Beef patty with BBQ sauce and crispy bacon"),
        ("price", .num 1799 2),
        ("category", .str "Burger"),
        ("is_available", .bool true)]]),
   ("reviews", .arr
     [.obj
       [("review_id", .str "rev_003"),
        ("customer_name", .str "Mike Johnson"),
        ("rating", .num 4 0),
        ("comment", .str "Great burgers, friendly staff"),
        ("date", .str "2024-01-17T18:45:00")]])]

/-- The `self.restaurants` dict of `MockRestaurantDatabase`, as an
association list in insertion order. -/
def mockRestaurants : List (String × Json) :=
  [("rest_001", rest001), ("rest_002", rest002), ("rest_003", rest003)]

/-- Python `dict.get` on a source-of-record store. -/
def dbGet (db : List (String × Json)) (rid : String) : Option Json :=
  (db.find? (fun e => e.1 == rid)).map (fun e => e.2)

/-- Python `list(dict.values())` on a source-of-record store. -/
def dbValues (db : List (String × Json)) : List Json := db.map (fun e => e.2)

/-- Record-field lookup `r[k]` for the object records of this program
(yields `Json.null` when the field is missing, which never happens on the
records the store produces). -/
def Json.getField (j : Json) (k : String) : Json :=
  match j with
  | .obj fs => ((fs.find? (fun e => e.1 == k)).map (fun e => e.2)).getD .null
  | _ => .null

/-- String-field access `r[k]` on a record (the searched fields are all
strings on every record the store produces). -/
def Json.getStr (j : Json) (k : String) : String :=
  match j.getField k with
  | .str s => s
  | _ => ""

/-- Numeric-field access `r[k]` on a record. -/
def Json.getNum (j : Json) (k : String) : DecNum :=
  match j.getField k with
  | .num m e => ⟨m, e⟩
  | _ => ⟨0, 0⟩

/-- Python `str.lower()` (ASCII case folding; every string this program
compares is ASCII). -/
def pyLower (s : String) : String := String.mk (s.toList.map Char.toLower)

/-- Python substring test `needle in hay`. -/
def strContains (hay needle : String) : Bool :=
  hay.toList.tails.any (fun t => needle.toList.isPrefixOf t)

/-- Filter predicate of `MockRestaurantDatabase.search_restaurants`,
written in the source's guard shape: substring match on name or
description, then the two `continue` guards (a truthy cuisine mismatch,
a rating below the threshold). -/
def searchPred (q : String) (ct : Option String) (mr : DecNum) (r : Json) : Bool :=
  if strContains (pyLower (r.getStr "name")) (pyLower q) ||
     strContains (pyLower (r.getStr "description")) (pyLower q) then
    if truthyOpt ct && !(pyLower (r.getStr "cuisine_type") == pyLower (ct.getD "")) then false
    else if decLt (r.getNum "rating") mr then false
    else true
  else false

/-- Model of `MockRestaurantDatabase.search_restaurants`: the loop over
`self.restaurants.values()` appending every record that passes the guards,
i.e. a filter in insertion order. -/
def db_search_restaurants (db : List (String × Json)) (q : String) (ct : Option String)
    (mr : DecNum) : List Json :=
  (dbValues db).filter (searchPred q ct mr)

/-- A decoded JSON value as seen by the Python caller of `get_restaurant`,
whose annotated result is `Optional[Dict]`: a decoded `null` is the Python
`None`. -/
def pyOpt (v : Json) : Option Json :=
  match v with
  | .null => none
  | v => some v

/-- Guarded cache-read stage shared by the three read-through methods: the
`try` block around `redis_client.get` plus `_deserialize_data`.  It yields
`some v` when the method returns early with the decoded value `v`, and
`none` when it falls through to the database fetch: no client, `use_cache`
false, a raising backend call, a missing or falsy cached payload, or a
payload that fails to decode (the last caught by the blanket `except`). -/
def cacheRead (bk : Behavior) (st : CacheState) (key : String) (useCache : Bool) : Option Json :=
  if useCache && bk.available && !bk.failing then
    match lookupC st key with
    | some (payload, _) => if payload == "" then none else loads payload
    | none => none
  else none

/-- Model of `RestaurantRedisCache.get_restaurant(restaurant_id, use_cache)`.
On a cache hit the decoded value is returned as the Python caller sees it
(`pyOpt` maps a decoded `null` to `None`); on fallthrough the database
result is returned and, when found and the client is usable, written back
with the full base expiration. -/
def get_restaurant (db : List (String × Json)) (exp : Nat) (bk : Behavior)
    (st : CacheState) (rid : String) (useCache : Bool) : Option Json × CacheState :=
  match cacheRead bk st (recordKey rid) useCache with
  | some v => (pyOpt v, st)
  | none =>
      match dbGet db rid with
      | some r =>
          if bk.available && !bk.failing then (some r, setex st (recordKey rid) (dumps r) exp)
          else (some r, st)
      | none => (none, st)

/-- Model of `RestaurantRedisCache.get_all_restaurants(use_cache)`:
read-through at the bulk key, written with half the base expiration, and
only written when the database listing is non-empty. -/
def get_all_restaurants (db : List (String × Json)) (exp : Nat) (bk : Behavior)
    (st : CacheState) (useCache : Bool) : Json × CacheState :=
  match cacheRead bk st bulkKey useCache with
  | some v => (v, st)
  | none =>
      let vals := dbValues db
      if !vals.isEmpty && bk.available && !bk.failing then
        (.arr vals, setex st bulkKey (dumps (.arr vals)) (exp / 2))
      else (.arr vals, st)

/-- Model of `RestaurantRedisCache.search_restaurants(query, cuisine_type,
min_rating, use_cache)`: read-through at the parameterised search key,
written with a quarter of the base expiration, and — unlike the other two
read paths — written whenever the client is usable, with no emptiness
check on the result list. -/
def search_restaurants (db : List (String × Json)) (exp : Nat) (bk : Behavior)
    (st : CacheState) (q : String) (ct : Option String) (mr : DecNum)
    (useCache : Bool) : Json × CacheState :=
  match cacheRead bk st (searchKey q ct mr) useCache with
  | some v => (v, st)
  | none =>
      let results := db_search_restaurants db q ct mr
      if bk.available && !bk.failing then
        (.arr results, setex st (searchKey q ct mr) (dumps (.arr results)) (exp / 4))
      else (.arr results, st)

/-- Model of `RestaurantRedisCache.invalidate_restaurant_cache(rid)`:
returns `False` untouched without a usable client (no client, or the first
backend call raising into the blanket handler); otherwise deletes the
record's own key, the bulk key, and every key of the search namespace, and
reports whether the record's own key was actually deleted. -/
def invalidate_restaurant_cache (bk : Behavior) (st : CacheState) (rid : String) :
    Bool × CacheState :=
  if !bk.available then (false, st)
  else if bk.failing then (false, st)
  else
    let key := recordKey rid
    let deleted : Nat := if (lookupC st key).isSome then 1 else 0
    let st1 := delKey st key
    let st2 := delKey st1 bulkKey
    let st3 := delPre st2 "search:"
    (decide (deleted > 0), st3)

/-- Model of `RestaurantRedisCache.clear_all_cache()`: without a usable
client it returns `False` untouched; otherwise it deletes the keys of the
three glob patterns in sequence and reports whether the total deleted
count was positive. -/
def clear_all_cache (bk : Behavior) (st : CacheState) : Bool × CacheState :=
  if !bk.available then (false, st)
  else if bk.failing then (false, st)
  else
    let k1 := globKeys st "restaurant:"
    let st1 := delPre st "restaurant:"
    let k2 := globKeys st1 "restaurants:"
    let st2 := delPre st1 "restaurants:"
    let k3 := globKeys st2 "search:"
    let st3 := delPre st2 "search:"
    (decide (k1.length + k2.length + k3.length > 0), st3)

/-- Spec-mandated variant of `getRecord` used as the refinement reference
for the serialization-error policy, following the spec's words: a backend
outage is a miss, but a cached payload that fails to decode must propagate
a `SerializationError` as a hard failure instead of being treated as a
miss.  Compare with `get_restaurant`, which models the source. -/
def get_restaurant_specSer (db : List (String × Json)) (exp : Nat) (bk : Behavior)
    (st : CacheState) (rid : String) : Except String (Option Json × CacheState) :=
  let key := recordKey rid
  let sourcePath : Except String (Option Json × CacheState) :=
    match dbGet db rid with
    | some r =>
        if bk.available && !bk.failing then .ok (some r, setex st key (dumps r) exp)
        else .ok (some r, st)
    | none => .ok (none, st)
  if bk.available && !bk.failing then
    match lookupC st key with
    | some (payload, _) =>
        if payload == "" then sourcePath
        else
          match loads payload with
          | some v => .ok (pyOpt v, st)
          | none => .error "SerializationError"
    | none => sourcePath
  else sourcePath

/-- Search filter written from the claim's words, with an `Option` cuisine
filter where `some` means supplied: case-insensitive substring match of
the query in name or description, a case-insensitively equal cuisine
category whenever a filter is supplied, and a rating at least the
threshold.  Compare with `searchPred`, which models the source. -/
def specSearchPred (q : String) (ct : Option String) (mr : DecNum) (r : Json) : Bool :=
  (strContains (pyLower (r.getStr "name")) (pyLower q) ||
     strContains (pyLower (r.getStr "description")) (pyLower q)) &&
  (match ct with
   | none => true
   | some c => pyLower (r.getStr "cuisine_type") == pyLower c) &&
  !(decLt (r.getNum "rating") mr)

/-- Search filter of the amended claim: as `specSearchPred`, except that
an empty-string cuisine filter counts as not supplied (the source's Python
truthiness test), so the cuisine condition applies only to a non-empty
supplied filter. -/
def amendedSearchPred (q : String) (ct : Option String) (mr : DecNum) (r : Json) : Bool :=
  (strContains (pyLower (r.getStr "name")) (pyLower q) ||
     strContains (pyLower (r.getStr "description")) (pyLower q)) &&
  (if truthyOpt ct then pyLower (r.getStr "cuisine_type") == pyLower (ct.getD "") else true) &&
  !(decLt (r.getNum "rating") mr)

set_option maxRecDepth 3000

theorem lookupC_eq_none_iff {st : CacheState} {k : String} :
    lookupC st k = none ↔ ∀ e ∈ st, ¬(e.1 == k) := by
  simp [lookupC, List.find?_eq_none]

theorem lookupC_setex_self (st : CacheState) (k v : String) (ttl : Nat) :
    lookupC (setex st k v ttl) k = some (v, ttl) := by
  simp [lookupC, setex, List.find?_cons]

theorem lookupC_filter_none {st : CacheState} {k : String}
    (h : lookupC st k = none) (p : String × String × Nat → Bool) :
    lookupC (st.filter p) k = none := by
  rw [lookupC_eq_none_iff] at h ⊢
  intro e he
  exact h e (List.mem_filter.mp he).1

theorem lookupC_delKey_self (st : CacheState) (k : String) :
    lookupC (delKey st k) k = none := by
  rw [lookupC_eq_none_iff]
  intro e he
  have := (List.mem_filter.mp he).2
  simpa using this

theorem cacheRead_none_of_lookupC_none {bk : Behavior} {st : CacheState} {key : String}
    (u : Bool) (h : lookupC st key = none) : cacheRead bk st key u = none := by
  unfold cacheRead
  split
  · rw [h]
  · rfl

theorem dbGet_insert (db : List (String × Json)) (rid : String) (r : Json)
    (h : dbGet db rid = none) : dbGet (db ++ [(rid, r)]) rid = some r := by
  induction db with
  | nil => simp [dbGet, List.find?]
  | cons e t ih =>
      simp only [dbGet, List.cons_append, List.find?_cons] at h ⊢
      cases he : (e.1 == rid) with
      | true => simp [he] at h
      | false =>
          simp only [he, cond_false] at h ⊢
          exact ih h

/-- C1: for every restaurant identifier, if the cache backend is
unavailable — no client (`available = false`, as `connect` leaves after a
connection failure) or every backend call raising (`failing = true`) —
`get_restaurant` still returns exactly the record held by the
source-of-record store for that identifier and leaves the cache state
untouched; being a total function, it propagates no backend-connectivity
error: the failing read is a miss and the failing write is skipped. -/
theorem c1_fail_open (db : List (String × Json)) (exp : Nat) (bk : Behavior)
    (st : CacheState) (rid : String)
    (h : bk.available = false ∨ bk.failing = true) :
    (get_restaurant db exp bk st rid true).1 = dbGet db rid ∧
    (get_restaurant db exp bk st rid true).2 = st := by
  obtain ⟨av, fl⟩ := bk
  rcases h with h | h <;> replace h : _ = _ := h <;> subst h <;>
    · simp only [get_restaurant, cacheRead]
      cases dbGet db rid <;> simp

theorem c1_fail_open_witness :
    (get_restaurant mockRestaurants 3600 ⟨false, false⟩ [] "rest_001" true).1
      = dbGet mockRestaurants "rest_001" ∧
    (get_restaurant mockRestaurants 3600 ⟨false, false⟩ [] "rest_001" true).2 = [] :=
  c1_fail_open mockRestaurants 3600 ⟨false, false⟩ [] "rest_001" (Or.inl rfl)

/-- Cache state holding an undecodable payload under the record key of
`'rest_001'`. -/
def badPayloadState : CacheState := [(recordKey "rest_001", "not json", 100)]

/-- C2, counterexample: at a cache state whose stored payload for
`'rest_001'` cannot be decoded, the spec-mandated behavior is a
propagated `SerializationError`, but the code returns normally with the
database record — the decode failure is caught by the blanket `except`
and treated as a cache miss, refuting the claim that such a failure is
never swallowed. -/
theorem c2_serialization_counterexample :
    get_restaurant_specSer mockRestaurants 3600 ⟨true, false⟩ badPayloadState "rest_001"
      = .error "SerializationError" ∧
    (get_restaurant mockRestaurants 3600 ⟨true, false⟩ badPayloadState "rest_001" true).1
      = some rest001 ∧
    (Except.ok (some rest001) : Except String (Option Json))
      ≠ .error "SerializationError" :=
  ⟨rfl, rfl, fun h => Except.noConfusion h⟩

/-- C2, amended: an encode or decode failure is caught by the same blanket
handler as a backend failure — a payload that fails to decode is treated
exactly as a cache miss, so the caller receives the source-of-record
result instead of a propagated `SerializationError`. -/
theorem c2_amended_decode_failure_is_miss (db : List (String × Json)) (exp : Nat)
    (bk : Behavior) (st : CacheState) (rid payload : String) (ttl : Nat)
    (hl : lookupC st (recordKey rid) = some (payload, ttl))
    (hp : (payload == "") = false)
    (hd : loads payload = none) :
    (get_restaurant db exp bk st rid true).1 = dbGet db rid := by
  obtain ⟨av, fl⟩ := bk
  cases av <;> cases fl <;>
    · simp only [get_restaurant, cacheRead, hl, hp, hd]
      cases dbGet db rid <;> simp

theorem c2_amended_witness :
    (get_restaurant mockRestaurants 3600 ⟨true, false⟩ badPayloadState "rest_001" true).1
      = dbGet mockRestaurants "rest_001" :=
  c2_amended_decode_failure_is_miss mockRestaurants 3600 ⟨true, false⟩ badPayloadState
    "rest_001" "not json" 100 rfl rfl rfl

/-- C3: with a usable backend, invalidating a record deletes that record's
own cache entry, the single bulk-listing entry, and every entry of the
search namespace — afterwards no entry remains under the record's key,
the bulk key, or the `search:` prefix, for every identifier and every
cache state. -/
theorem c3_invalidation_cascade (bk : Behavior) (st : CacheState) (rid : String)
    (hav : bk.available = true) (hfl : bk.failing = false) :
    lookupC (invalidate_restaurant_cache bk st rid).2 (recordKey rid) = none ∧
    lookupC (invalidate_restaurant_cache bk st rid).2 bulkKey = none ∧
    ((invalidate_restaurant_cache bk st rid).2).all
      (fun e => !(pfxB "search:" e.1)) = true := by
  obtain ⟨av, fl⟩ := bk
  replace hav : av = true := hav
  replace hfl : fl = false := hfl
  subst hav; subst hfl
  simp only [invalidate_restaurant_cache, Bool.not_true, Bool.false_eq_true,
    if_false, if_true]
  refine ⟨?_, ?_, ?_⟩
  · exact lookupC_filter_none
      (lookupC_filter_none (lookupC_delKey_self st (recordKey rid)) _) _
  · exact lookupC_filter_none (lookupC_delKey_self (delKey st (recordKey rid)) bulkKey) _
  · rw [List.all_eq_true]
    intro e he
    have := (List.mem_filter.mp he).2
    simpa using this

theorem c3_invalidation_cascade_witness :
    lookupC (invalidate_restaurant_cache ⟨true, false⟩
        [(recordKey "rest_001", "a", 3600), (bulkKey, "b", 1800),
         (searchKey "pizza" none ⟨40, 1⟩, "c", 900)] "rest_001").2
      (recordKey "rest_001") = none ∧
    lookupC (invalidate_restaurant_cache ⟨true, false⟩
        [(recordKey "rest_001", "a", 3600), (bulkKey, "b", 1800),
         (searchKey "pizza" none ⟨40, 1⟩, "c", 900)] "rest_001").2 bulkKey = none ∧
    ((invalidate_restaurant_cache ⟨true, false⟩
        [(recordKey "rest_001", "a", 3600), (bulkKey, "b", 1800),
         (searchKey "pizza" none ⟨40, 1⟩, "c", 900)] "rest_001").2).all
      (fun e => !(pfxB "search:" e.1)) = true :=
  c3_invalidation_cascade ⟨true, false⟩
    [(recordKey "rest_001", "a", 3600), (bulkKey, "b", 1800),
     (searchKey "pizza" none ⟨40, 1⟩, "c", 900)] "rest_001" rfl rfl

/-- C4: composing a cache key is deterministic in the set of parameter
bindings — two parameter mappings holding the same name-to-value pairs,
in any insertion order (modelled as permuted association lists), produce
character-identical keys, because the pairs are sorted before
concatenation. -/
theorem c4_key_determinism (pre ident : String) (l1 l2 : List (String × String))
    (h : l1.Perm l2) : genKey pre ident l1 = genKey pre ident l2 := by
  have hs : l1.insertionSort pairLE = l2.insertionSort pairLE :=
    List.eq_of_perm_of_sorted
      ((List.perm_insertionSort pairLE l1).trans
        (h.trans (List.perm_insertionSort pairLE l2).symm))
      (List.sorted_insertionSort pairLE l1) (List.sorted_insertionSort pairLE l2)
  have he : l1.isEmpty = l2.isEmpty := by
    cases l1 with
    | nil => cases l2 with
      | nil => rfl
      | cons b t => exact absurd h.nil_eq (by simp)
    | cons a s => cases l2 with
      | nil => exact absurd h.symm.nil_eq (by simp)
      | cons b t => rfl
  simp only [genKey, hs, he]

theorem c4_key_determinism_witness :
    genKey "search" "9f8a1c3d" [("cuisine", "italian"), ("min_rating", "4.0")]
      = genKey "search" "9f8a1c3d" [("min_rating", "4.0"), ("cuisine", "italian")] :=
  c4_key_determinism "search" "9f8a1c3d"
    [("cuisine", "italian"), ("min_rating", "4.0")]
    [("min_rating", "4.0"), ("cuisine", "italian")] (by decide)

/-- C5: with a usable backend, a read-through write at the record tier
stores its entry with the full base TTL, the bulk-listing tier with the
base divided by two, and the search tier with the base divided by four —
for every configured base (so a base of 3600 gives 3600, 1800 and 900). -/
theorem c5_tiered_ttl (db : List (String × Json)) (exp : Nat) (bk : Behavior)
    (st : CacheState) (hav : bk.available = true) (hfl : bk.failing = false) :
    (∀ rid r, lookupC st (recordKey rid) = none → dbGet db rid = some r →
      lookupC (get_restaurant db exp bk st rid true).2 (recordKey rid)
        = some (dumps r, exp)) ∧
    (lookupC st bulkKey = none → (dbValues db).isEmpty = false →
      lookupC (get_all_restaurants db exp bk st true).2 bulkKey
        = some (dumps (Json.arr (dbValues db)), exp / 2)) ∧
    (∀ q ct mr, lookupC st (searchKey q ct mr) = none →
      lookupC (search_restaurants db exp bk st q ct mr true).2 (searchKey q ct mr)
        = some (dumps (Json.arr (db_search_restaurants db q ct mr)), exp / 4)) := by
  obtain ⟨av, fl⟩ := bk
  replace hav : av = true := hav
  replace hfl : fl = false := hfl
  subst hav; subst hfl
  refine ⟨?_, ?_, ?_⟩
  · intro rid r hc hdb
    simp [get_restaurant, cacheRead_none_of_lookupC_none true hc, hdb,
      lookupC_setex_self]
  · intro hc hne
    simp [get_all_restaurants, cacheRead_none_of_lookupC_none true hc, hne,
      lookupC_setex_self]
  · intro q ct mr hc
    simp [search_restaurants, cacheRead_none_of_lookupC_none true hc,
      lookupC_setex_self]

theorem c5_tiered_ttl_witness :
    lookupC (get_restaurant mockRestaurants 3600 ⟨true, false⟩ [] "rest_001" true).2
      (recordKey "rest_001") = some (dumps rest001, 3600) ∧
    lookupC (get_all_restaurants mockRestaurants 3600 ⟨true, false⟩ [] true).2 bulkKey
      = some (dumps (Json.arr (dbValues mockRestaurants)), 1800) ∧
    lookupC (search_restaurants mockRestaurants 3600 ⟨true, false⟩ [] "pizza" none
        ⟨40, 1⟩ true).2 (searchKey "pizza" none ⟨40, 1⟩)
      = some (dumps (Json.arr (db_search_restaurants mockRestaurants "pizza" none
        ⟨40, 1⟩)), 900) :=
  ⟨(c5_tiered_ttl mockRestaurants 3600 ⟨true, false⟩ [] rfl rfl).1 "rest_001" rest001
      rfl rfl,
   (c5_tiered_ttl mockRestaurants 3600 ⟨true, false⟩ [] rfl rfl).2.1 rfl rfl,
   (c5_tiered_ttl mockRestaurants 3600 ⟨true, false⟩ [] rfl rfl).2.2 "pizza" none
      ⟨40, 1⟩ rfl⟩

/-- C6: for an identifier absent from both the cache and the
source-of-record store, `get_restaurant` returns `None` and writes nothing
to the cache (the state is returned unchanged — no negative caching), and
once a record with that identifier is inserted into the source, the same
call returns the newly created record instead of a stale `None`. -/
theorem c6_no_negative_caching (db : List (String × Json)) (exp : Nat) (bk : Behavior)
    (st : CacheState) (rid : String) (r : Json)
    (hc : lookupC st (recordKey rid) = none) (hd : dbGet db rid = none) :
    get_restaurant db exp bk st rid true = (none, st) ∧
    (get_restaurant (db ++ [(rid, r)]) exp bk st rid true).1 = some r := by
  constructor
  · simp [get_restaurant, cacheRead_none_of_lookupC_none true hc, hd]
  · obtain ⟨av, fl⟩ := bk
    cases av <;> cases fl <;>
      simp [get_restaurant, cacheRead_none_of_lookupC_none true hc, dbGet_insert db rid r hd]

theorem c6_no_negative_caching_witness :
    get_restaurant mockRestaurants 3600 ⟨true, false⟩ [] "rest_missing" true
      = (none, []) ∧
    (get_restaurant (mockRestaurants ++
        [("rest_missing", Json.obj [("restaurant_id", Json.str "rest_missing")])])
      3600 ⟨true, false⟩ [] "rest_missing" true).1
      = some (Json.obj [("restaurant_id", Json.str "rest_missing")]) :=
  c6_no_negative_caching mockRestaurants 3600 ⟨true, false⟩ [] "rest_missing"
    (Json.obj [("restaurant_id", Json.str "rest_missing")]) rfl rfl

/-- C7: the serialization codec forms an exact round trip on every record
the source-of-record store produces and on every list of such records the
store can return (`get_all_restaurants` returns the full value list and
every search result is a sublist of it): decoding the encoded form yields
the original value. -/
theorem c7_round_trip :
    (∀ r ∈ dbValues mockRestaurants, loads (dumps r) = some r) ∧
    (∀ l, l.Sublist (dbValues mockRestaurants) →
      loads (dumps (Json.arr l)) = some (Json.arr l)) := by
  constructor
  · intro r hr
    rw [show dbValues mockRestaurants = [rest001, rest002, rest003] from rfl] at hr
    rcases List.mem_cons.mp hr with rfl | hr
    · rfl
    rcases List.mem_cons.mp hr with rfl | hr
    · rfl
    rcases List.mem_cons.mp hr with rfl | hr
    · rfl
    exact absurd hr (List.not_mem_nil r)
  · intro l hl
    have hm : l ∈ (dbValues mockRestaurants).sublists := List.mem_sublists.mpr hl
    rw [show (dbValues mockRestaurants).sublists =
      [[], [rest001], [rest002], [rest001, rest002], [rest003], [rest001, rest003],
       [rest002, rest003], [rest001, rest002, rest003]] from rfl] at hm
    rcases List.mem_cons.mp hm with rfl | hm
    · rfl
    rcases List.mem_cons.mp hm with rfl | hm
    · rfl
    rcases List.mem_cons.mp hm with rfl | hm
    · rfl
    rcases List.mem_cons.mp hm with rfl | hm
    · rfl
    rcases List.mem_cons.mp hm with rfl | hm
    · rfl
    rcases List.mem_cons.mp hm with rfl | hm
    · rfl
    rcases List.mem_cons.mp hm with rfl | hm
    · rfl
    rcases List.mem_cons.mp hm with rfl | hm
    · rfl
    exact absurd hm (List.not_mem_nil l)

theorem c7_round_trip_witness :
    loads (dumps rest001) = some rest001 ∧
    loads (dumps (Json.arr (dbValues mockRestaurants)))
      = some (Json.arr (dbValues mockRestaurants)) :=
  ⟨c7_round_trip.1 rest001 (List.Mem.head _),
   c7_round_trip.2 (dbValues mockRestaurants) (List.Sublist.refl _)⟩

/-- C8, counterexample: with an empty-string cuisine filter — a supplied
filter under the claim's reading of the optional argument — the cache-miss
search returns every record (the source's Python truthiness test skips the
cuisine guard entirely), not the empty set the claim's filter demands:
at query `""`, cuisine filter `""`, minimum rating `0.0` the façade result
differs from the claim's filter of the store. -/
theorem c8_search_counterexample :
    (search_restaurants mockRestaurants 3600 ⟨true, false⟩ [] "" (some "") ⟨0, 0⟩ true).1
      = Json.arr (dbValues mockRestaurants) ∧
    (dbValues mockRestaurants).filter (specSearchPred "" (some "") ⟨0, 0⟩) = [] ∧
    (search_restaurants mockRestaurants 3600 ⟨true, false⟩ [] "" (some "") ⟨0, 0⟩ true).1
      ≠ Json.arr ((dbValues mockRestaurants).filter (specSearchPred "" (some "") ⟨0, 0⟩)) := by
  refine ⟨rfl, rfl, ?_⟩
  intro h
  have h2 : Json.arr [rest001, rest002, rest003] = Json.arr [] := h
  injection h2 with h3
  exact List.noConfusion h3

/-- Pointwise agreement of the source's search guard with the amended
claim's filter: they differ only in how the guards are phrased, once an
empty-string cuisine filter counts as not supplied. -/
theorem searchPred_eq_amended (q : String) (ct : Option String) (mr : DecNum) (r : Json) :
    searchPred q ct mr r = amendedSearchPred q ct mr r := by
  unfold searchPred amendedSearchPred
  cases strContains (pyLower (r.getStr "name")) (pyLower q) ||
      strContains (pyLower (r.getStr "description")) (pyLower q) <;>
    cases truthyOpt ct <;>
    cases pyLower (r.getStr "cuisine_type") == pyLower (ct.getD "") <;>
    cases decLt (r.getNum "rating") mr <;>
    rfl

/-- C8, amended: on a cache miss, the search operation returns exactly the
records whose name or description contains the query as a case-insensitive
substring, that — when a non-empty cuisine filter is supplied (an
empty-string filter, like `None`, counts as no filter) — have a
case-insensitively equal cuisine category, and whose rating is at least
the minimum-rating threshold. -/
theorem c8_amended_search_filter (db : List (String × Json)) (exp : Nat) (bk : Behavior)
    (st : CacheState) (q : String) (ct : Option String) (mr : DecNum)
    (hc : lookupC st (searchKey q ct mr) = none) :
    (search_restaurants db exp bk st q ct mr true).1
      = Json.arr ((dbValues db).filter (amendedSearchPred q ct mr)) := by
  have hpred : searchPred q ct mr = amendedSearchPred q ct mr :=
    funext (searchPred_eq_amended q ct mr)
  obtain ⟨av, fl⟩ := bk
  cases av <;> cases fl <;>
    simp [search_restaurants, db_search_restaurants,
      cacheRead_none_of_lookupC_none true hc, hpred]

theorem c8_amended_witness :
    (search_restaurants mockRestaurants 3600 ⟨true, false⟩ [] "a" (some "Italian")
        ⟨40, 1⟩ true).1
      = Json.arr ((dbValues mockRestaurants).filter
          (amendedSearchPred "a" (some "Italian") ⟨40, 1⟩)) :=
  c8_amended_search_filter mockRestaurants 3600 ⟨true, false⟩ [] "a" (some "Italian")
    ⟨40, 1⟩ rfl

/-- C9: with a usable backend, a cache-miss search stores its result set
even when that set is empty (the serialized empty list goes in under the
search key), whereas `get_restaurant` leaves the cache untouched when the
record is absent from the source and `get_all_restaurants` leaves it
untouched when the source listing is empty. -/
theorem c9_empty_write_policy (db : List (String × Json)) (exp : Nat) (bk : Behavior)
    (st : CacheState) (hav : bk.available = true) (hfl : bk.failing = false) :
    (∀ rid, dbGet db rid = none → (get_restaurant db exp bk st rid true).2 = st) ∧
    ((dbValues db).isEmpty = true → (get_all_restaurants db exp bk st true).2 = st) ∧
    (∀ q ct mr, lookupC st (searchKey q ct mr) = none →
      db_search_restaurants db q ct mr = [] →
      lookupC (search_restaurants db exp bk st q ct mr true).2 (searchKey q ct mr)
        = some (dumps (Json.arr []), exp / 4)) := by
  obtain ⟨av, fl⟩ := bk
  replace hav : av = true := hav
  replace hfl : fl = false := hfl
  subst hav; subst hfl
  refine ⟨?_, ?_, ?_⟩
  · intro rid hd
    cases hcr : cacheRead ⟨true, false⟩ st (recordKey rid) true <;>
      simp [get_restaurant, hcr, hd]
  · intro he
    cases hcr : cacheRead ⟨true, false⟩ st bulkKey true <;>
      simp [get_all_restaurants, hcr, he]
  · intro q ct mr hc hres
    simp [search_restaurants, cacheRead_none_of_lookupC_none true hc, hres,
      lookupC_setex_self]

theorem c9_empty_write_policy_witness :
    (get_restaurant mockRestaurants 3600 ⟨true, false⟩ [] "rest_999" true).2 = [] ∧
    (get_all_restaurants [] 3600 ⟨true, false⟩ [] true).2 = [] ∧
    lookupC (search_restaurants mockRestaurants 3600 ⟨true, false⟩ [] "zzz" none
        ⟨0, 0⟩ true).2 (searchKey "zzz" none ⟨0, 0⟩)
      = some (dumps (Json.arr []), 900) :=
  ⟨(c9_empty_write_policy mockRestaurants 3600 ⟨true, false⟩ [] rfl rfl).1 "rest_999" rfl,
   (c9_empty_write_policy [] 3600 ⟨true, false⟩ [] rfl rfl).2.1 rfl,
   (c9_empty_write_policy mockRestaurants 3600 ⟨true, false⟩ [] rfl rfl).2.2 "zzz" none
      ⟨0, 0⟩ rfl rfl⟩

/-- Key namespaces cleared by `clear_all_cache`: the three glob prefixes. -/
def matchesAnyNs (k : String) : Bool :=
  pfxB "restaurant:" k || pfxB "restaurants:" k || pfxB "search:" k

theorem mem_globKeys_of {st : CacheState} {e : String × String × Nat} (he : e ∈ st)
    {p : String} (hp : pfxB p e.1 = true) : e.1 ∈ globKeys st p :=
  List.mem_map.mpr ⟨e, List.mem_filter.mpr ⟨he, hp⟩, rfl⟩

theorem exists_of_mem_globKeys {st : CacheState} {p k : String}
    (h : k ∈ globKeys st p) : ∃ e ∈ st, e.1 = k ∧ pfxB p e.1 = true := by
  obtain ⟨e, hef, hk⟩ := List.mem_map.mp h
  obtain ⟨hes, hp⟩ := List.mem_filter.mp hef
  exact ⟨e, hes, hk, hp⟩

theorem mem_delPre_of {st : CacheState} {p : String} {e : String × String × Nat}
    (he : e ∈ st) (hp : pfxB p e.1 = false) : e ∈ delPre st p :=
  List.mem_filter.mpr ⟨he, by simp [hp]⟩

theorem mem_of_mem_delPre {st : CacheState} {p : String} {e : String × String × Nat}
    (h : e ∈ delPre st p) : e ∈ st := (List.mem_filter.mp h).1

theorem pfx_false_of_mem_delPre {st : CacheState} {p : String} {e : String × String × Nat}
    (h : e ∈ delPre st p) : pfxB p e.1 = false := by
  have := (List.mem_filter.mp h).2
  simpa using this

/-- C10: `clear_all_cache` returns `True` exactly when at least one key
of the restaurant, bulk-listing or search namespace was present to be
deleted; with an unusable backend, or when no key matches, it returns
`False` — and in the usable case the final state holds no entry of the
three namespaces. -/
theorem c10_clear_all (bk : Behavior) (st : CacheState) :
    (bk.available = false ∨ bk.failing = true → clear_all_cache bk st = (false, st)) ∧
    (bk.available = true → bk.failing = false →
      ((clear_all_cache bk st).1 = true ↔ ∃ e ∈ st, matchesAnyNs e.1 = true)) ∧
    (bk.available = true → bk.failing = false →
      ((clear_all_cache bk st).2).all (fun e => !(matchesAnyNs e.1)) = true) := by
  obtain ⟨av, fl⟩ := bk
  refine ⟨?_, ?_, ?_⟩
  · rintro (h | h) <;> replace h : _ = _ := h <;> subst h <;>
      simp [clear_all_cache]
  · intro hav hfl
    replace hav : av = true := hav
    replace hfl : fl = false := hfl
    subst hav; subst hfl
    simp only [clear_all_cache, Bool.not_true, Bool.false_eq_true, if_false, if_true,
      decide_eq_true_eq]
    constructor
    · intro hsum
      have h3 : 0 < (globKeys st "restaurant:").length ∨
          0 < (globKeys (delPre st "restaurant:") "restaurants:").length ∨
          0 < (globKeys (delPre (delPre st "restaurant:") "restaurants:") "search:").length := by
        omega
      rcases h3 with h | h | h
      · obtain ⟨k, hk⟩ := List.exists_mem_of_length_pos h
        obtain ⟨e, he, _, hp⟩ := exists_of_mem_globKeys hk
        exact ⟨e, he, by simp [matchesAnyNs, hp]⟩
      · obtain ⟨k, hk⟩ := List.exists_mem_of_length_pos h
        obtain ⟨e, he, _, hp⟩ := exists_of_mem_globKeys hk
        exact ⟨e, mem_of_mem_delPre he, by simp [matchesAnyNs, hp]⟩
      · obtain ⟨k, hk⟩ := List.exists_mem_of_length_pos h
        obtain ⟨e, he, _, hp⟩ := exists_of_mem_globKeys hk
        exact ⟨e, mem_of_mem_delPre (mem_of_mem_delPre he), by simp [matchesAnyNs, hp]⟩
    · rintro ⟨e, he, hm⟩
      by_cases h1 : pfxB "restaurant:" e.1 = true
      · have := List.length_pos_of_mem (mem_globKeys_of he h1)
        omega
      · replace h1 : pfxB "restaurant:" e.1 = false := by simpa using h1
        by_cases h2 : pfxB "restaurants:" e.1 = true
        · have := List.length_pos_of_mem (mem_globKeys_of (mem_delPre_of he h1) h2)
          omega
        · replace h2 : pfxB "restaurants:" e.1 = false := by simpa using h2
          have h3 : pfxB "search:" e.1 = true := by
            simp [matchesAnyNs, h1, h2] at hm
            exact hm
          have := List.length_pos_of_mem
            (mem_globKeys_of (mem_delPre_of (mem_delPre_of he h1) h2) h3)
          omega
  · intro hav hfl
    replace hav : av = true := hav
    replace hfl : fl = false := hfl
    subst hav; subst hfl
    simp only [clear_all_cache, Bool.not_true, Bool.false_eq_true, if_false, if_true]
    rw [List.all_eq_true]
    intro e he
    have h3 := pfx_false_of_mem_delPre he
    have h2 := pfx_false_of_mem_delPre (mem_of_mem_delPre he)
    have h1 := pfx_false_of_mem_delPre (mem_of_mem_delPre (mem_of_mem_delPre he))
    simp [matchesAnyNs, h1, h2, h3]

theorem c10_clear_all_witness :
    clear_all_cache ⟨false, false⟩ [(recordKey "rest_001", "a", 3600)]
      = (false, [(recordKey "rest_001", "a", 3600)]) ∧
    ((clear_all_cache ⟨true, false⟩ [(recordKey "rest_001", "a", 3600)]).1 = true ↔
      ∃ e ∈ [(recordKey "rest_001", "a", 3600)], matchesAnyNs e.1 = true) :=
  ⟨(c10_clear_all ⟨false, false⟩ [(recordKey "rest_001", "a", 3600)]).1 (Or.inl rfl),
   (c10_clear_all ⟨true, false⟩ [(recordKey "rest_001", "a", 3600)]).2.1 rfl rfl⟩
